import Mathlib

/-!
Shallow embedding of the `dialog-manager` repository: a zustand-based
registry store (`src/unnamed/part_000`, `useDialogManager`) and the
`useDialog` mount-controller hook
(`src/src/dialog-manager/use-dialog.tsx`).

The registry is `state : Record<string, { open: boolean }>`; an entry
`{ open: b }` is represented by its single boolean field, so a registry
is a map from ids to `Option Bool` (`none` = no entry at that key).
All store mutations go through immer's `produce`, which builds a new
snapshot; extensionally each mutation is a pure function on the map.
-/

namespace DialogManager

/-- The registry's `state` field: `Record<string, { open: boolean }>`. -/
def Registry : Type := String → Option Bool

/-- `registerDialog(id)`: `state.state[id] = { open: false }`. -/
def registerDialog (id : String) (r : Registry) : Registry :=
  fun k => if k = id then some false else r k

/-- `unregisterDialog(id)`: `delete state.state[id]`. -/
def unregisterDialog (id : String) (r : Registry) : Registry :=
  fun k => if k = id then none else r k

/-- `openDialog(id)`: `state.state[id].open = true`.  When no entry exists at
`id`, the property access on `undefined` throws a `TypeError`, modelled as
`none`; otherwise the entry's flag is set to `true`. -/
def openDialog (id : String) (r : Registry) : Option Registry :=
  match r id with
  | none => none
  | some _ => some (fun k => if k = id then some true else r k)

/-- `closeDialog(id)`: `state.state[id].open = false`.  Fails the same way as
`openDialog` when the entry is absent. -/
def closeDialog (id : String) (r : Registry) : Option Registry :=
  match r id with
  | none => none
  | some _ => some (fun k => if k = id then some false else r k)

/-!
The mount controller (`useDialog` in `use-dialog.tsx`).

The hook's per-instance state is `useState<T>(initialProps)` destructured
as `{ id, ...props }`, `useState isMounted`, `containerRef` and
`mountTargetRef`.  Props are value maps over an arbitrary value type `V`;
the `id` field of the props object is kept in its own slot (the hook reads
it only through the destructuring), the remaining fields as a map.

The document is modelled by the part of it the hook touches: an
allocation arena of `div` nodes (a node reference is its arena index, as
produced by `document.createElement`) and the list of children of
`document.body` (the only parent any node ever gets, so `parentNode` is
non-null exactly when the index is among `bodyChildren`).
-/

/-- The `fallback` prop of the `Suspense` wrapper: `open` renders with
`fallback={null}`, the props-update effect with `fallback={<div>Loading...</div>}`. -/
inductive Fallback : Type where
  | nullF : Fallback
  | loadingDiv : Fallback
deriving DecidableEq, Repr

/-- The element passed to `ReactDOM.render`:
`<Suspense fallback={...}><Component {...props} id={id} /></Suspense>` —
a component wrapped in an asynchronous-content (Suspense) boundary,
receiving the spread props plus the `id`. -/
structure Element (V : Type) where
  fallback : Fallback
  props : String → Option V
  id : String

/-- One allocated `div` node: its `id` attribute and the React tree
currently rendered into it (`none` when empty / unmounted). -/
structure DomNodeRec (V : Type) where
  elemId : String
  content : Option (Element V)

/-- The slice of the document the hook manipulates. -/
structure Dom (V : Type) where
  nodes : List (DomNodeRec V)
  bodyChildren : List Nat

/-- Write the rendered tree of node `n` (as `ReactDOM.render` /
`unmountComponentAtNode` do); rendering into an unallocated index leaves
the arena unchanged (unreachable from the hook, which only renders into a
node it created). -/
def setContent {V : Type} (nodes : List (DomNodeRec V)) (n : Nat)
    (c : Option (Element V)) : List (DomNodeRec V) :=
  match nodes.get? n with
  | some node => nodes.set n { node with content := c }
  | none => nodes

/-- `document.body.contains(node with id attribute = i)`: some body child
is an allocated node whose `id` attribute is `i`. -/
def bodyContainsId {V : Type} (d : Dom V) (i : String) : Bool :=
  d.bodyChildren.any (fun n =>
    match d.nodes.get? n with
    | some node => node.elemId == i
    | none => false)

/-- Well-formedness of the document slice: body children are pairwise
distinct (a DOM node appears at most once among a parent's children) and
all allocated. -/
def Dom.WF {V : Type} (d : Dom V) : Prop :=
  d.bodyChildren.Nodup ∧ ∀ n ∈ d.bodyChildren, n < d.nodes.length

/-- The per-instance state of `useDialog`: the `id` slot and the rest of
the props state, the `isMounted` state, `containerRef` (`none` = `null`)
and whether `mountTargetRef` has been pointed at `document.body`. -/
structure Controller (V : Type) where
  id : String
  props : String → Option V
  isMounted : Bool
  container : Option Nat
  mountTargetIsBody : Bool

/-- `open()`: create the container `div` (with its `id` attribute set to
`id`) if absent; point `mountTargetRef` at `document.body`; append the
container to the body if it has no parent yet; render
`<Suspense fallback={null}><Component {...props} id={id}/></Suspense>`
into it; `setIsMounted(true)`; finally `openDialog(id)`.  The source's
`if (containerRef.current)` guards are always true at those points (the
container was just ensured), so they drop out.  `openDialog` runs last:
when it throws (id not registered) the DOM and hook-state effects have
already happened, hence the result keeps them and carries `none` in the
registry slot (the registry itself is then unchanged, the exception
propagating to the caller). -/
def openFn {V : Type} (c : Controller V) (d : Dom V) (r : DialogManager.Registry) :
    Controller V × Dom V × Option DialogManager.Registry :=
  let nd : Nat × Dom V :=
    match c.container with
    | some n => (n, d)
    | none => (d.nodes.length, { d with nodes := d.nodes ++ [⟨c.id, none⟩] })
  let n := nd.1
  let d1 := nd.2
  let c1 : Controller V := { c with container := some n, mountTargetIsBody := true }
  let d2 := if d1.bodyChildren.contains n then d1
            else { d1 with bodyChildren := d1.bodyChildren ++ [n] }
  let element : Element V := ⟨Fallback.nullF, c.props, c.id⟩
  let d3 : Dom V := { d2 with nodes := setContent d2.nodes n (some element) }
  let c2 : Controller V := { c1 with isMounted := true }
  (c2, d3, DialogManager.openDialog c.id r)

/-- `close(debounce = 0)`: `closeDialog(id)` first (when it throws, on an
unregistered id, nothing else runs — `none`); then, if a container
exists, `unmountComponentAtNode` on it and, if it also has a parent,
`removeChild`; finally drop the container reference and
`setIsMounted(false)`.  The `debounce` parameter is accepted but never
read. -/
def closeFn {V : Type} (debounce : Nat) (c : Controller V) (d : Dom V)
    (r : DialogManager.Registry) :
    Option (Controller V × Dom V × DialogManager.Registry) :=
  match DialogManager.closeDialog c.id r with
  | none => none
  | some r' =>
    let d1 : Dom V :=
      match c.container with
      | some n => { d with nodes := setContent d.nodes n none }
      | none => d
    let d2 : Dom V :=
      match c.container with
      | some n =>
        if d1.bodyChildren.contains n
        then { d1 with bodyChildren := d1.bodyChildren.erase n }
        else d1
      | none => d1
    some ({ c with container := none, isMounted := false }, d2, r')

/-- `updateProps(newProps)`: `setProps(old => ({ ...old, ...newProps }))` —
a shallow merge into the whole props state, last write wins per key.  The
`id` field of the partial is its `newId` slot (`none` when the partial
leaves the id alone), the remaining fields the map `newProps`. -/
def updateProps {V : Type} (newId : Option String) (newProps : String → Option V)
    (c : Controller V) : Controller V :=
  { c with
    id := newId.getD c.id
    props := fun k =>
      match newProps k with
      | some v => some v
      | none => c.props k }

/-- The `useEffect([props, Component, isMounted, id])` body: when mounted
and a container exists, re-render
`<Suspense fallback={<div>Loading...</div>}><Component {...props} id={id}/></Suspense>`
into the container; otherwise no render call happens. -/
def propsEffect {V : Type} (c : Controller V) (d : Dom V) : Dom V :=
  if c.isMounted then
    match c.container with
    | some n =>
      { d with nodes := setContent d.nodes n (some ⟨Fallback.loadingDiv, c.props, c.id⟩) }
    | none => d
  else d

/-- The `useEffect([id, registerDialog])` body: `registerDialog(id)`. -/
def registerEffect {V : Type} (c : Controller V) (r : DialogManager.Registry) :
    DialogManager.Registry :=
  DialogManager.registerDialog c.id r

/-!
Concrete sample states, used to evaluate the theorems below on closed
inputs.
-/

/-- A registry holding the single entry `"modal-1" ↦ { open: false }`. -/
def sampleRegistry : Registry :=
  fun k => if k = "modal-1" then some false else none

/-- A registry holding the single entry `"modal-1" ↦ { open: true }`. -/
def openRegistry : Registry :=
  fun k => if k = "modal-1" then some true else none

/-- A freshly created controller for id `"modal-1"`: no props, unmounted,
no container. -/
def sampleController : Controller Nat :=
  { id := "modal-1"
    props := fun _ => none
    isMounted := false
    container := none
    mountTargetIsBody := false }

/-- An empty document: no allocated nodes, empty body. -/
def sampleDom : Dom Nat := { nodes := [], bodyChildren := [] }

/-- A controller for id `"modal-1"` in the mounted state, owning node 0. -/
def mountedController : Controller Nat :=
  { id := "modal-1"
    props := fun _ => none
    isMounted := true
    container := some 0
    mountTargetIsBody := true }

/-- A document whose single node 0 is the mounted container of
`mountedController`, attached under the body. -/
def mountedDom : Dom Nat :=
  { nodes := [⟨"modal-1", some ⟨Fallback.nullF, fun _ => none, "modal-1"⟩⟩]
    bodyChildren := [0] }

/-- The partial props update `{ x: 1 }`. -/
def pX : String → Option Nat := fun k => if k = "x" then some 1 else none

/-- The partial props update `{ y: 2 }`. -/
def pY : String → Option Nat := fun k => if k = "y" then some 2 else none

end DialogManager

namespace DialogManager

/-!
Helper lemmas about the document model.
-/

/-- A freshly allocated node index is not among the body's children of a
well-formed document. -/
theorem fresh_not_in_body {V : Type} (d : Dom V) (hwf : d.WF) :
    d.nodes.length ∉ d.bodyChildren :=
  fun h => absurd (hwf.2 _ h) (lt_irrefl _)

/-- Unfolding `openFn` when no container exists yet: a fresh node is
allocated, appended to the body, and rendered into. -/
theorem openFn_container_none {V : Type} (c : Controller V) (d : Dom V) (r : Registry)
    (hc : c.container = none)
    (hfresh : d.nodes.length ∉ d.bodyChildren) :
    openFn c d r =
      ({ c with
          container := some d.nodes.length
          mountTargetIsBody := true
          isMounted := true },
       { nodes := setContent (d.nodes ++ [⟨c.id, none⟩]) d.nodes.length
           (some ⟨Fallback.nullF, c.props, c.id⟩)
         bodyChildren := d.bodyChildren ++ [d.nodes.length] },
       openDialog c.id r) := by
  simp [openFn, hc, List.elem_eq_mem, hfresh]

/-- Unfolding `openFn` when the container exists and is attached: no
allocation and no re-append, only a re-render. -/
theorem openFn_container_some {V : Type} (c : Controller V) (d : Dom V) (r : Registry)
    (n : Nat) (hc : c.container = some n)
    (hin : n ∈ d.bodyChildren) :
    openFn c d r =
      ({ c with
          container := some n
          mountTargetIsBody := true
          isMounted := true },
       { d with nodes := setContent d.nodes n (some ⟨Fallback.nullF, c.props, c.id⟩) },
       openDialog c.id r) := by
  simp [openFn, hc, List.elem_eq_mem, hin]

/-- Unfolding `closeFn` when no container exists: the document is left
untouched. -/
theorem closeFn_container_none {V : Type} (debounce : Nat) (c : Controller V) (d : Dom V)
    (r : Registry) (r' : Registry) (hr : closeDialog c.id r = some r')
    (hc : c.container = none) :
    closeFn debounce c d r =
      some ({ c with container := none, isMounted := false }, d, r') := by
  simp [closeFn, hr, hc]

/-- Unfolding `closeFn` when the container exists and is attached: it is
emptied and removed from the body. -/
theorem closeFn_container_some {V : Type} (debounce : Nat) (c : Controller V) (d : Dom V)
    (r : Registry) (r' : Registry) (n : Nat) (hr : closeDialog c.id r = some r')
    (hc : c.container = some n)
    (hin : n ∈ d.bodyChildren) :
    closeFn debounce c d r =
      some ({ c with container := none, isMounted := false },
        { nodes := setContent d.nodes n none
          bodyChildren := d.bodyChildren.erase n }, r') := by
  simp [closeFn, hr, hc, List.elem_eq_mem, hin]

/-- Unfolding `closeFn` when the container exists but is detached: it is
emptied, and the body is left untouched. -/
theorem closeFn_container_some_detached {V : Type} (debounce : Nat) (c : Controller V)
    (d : Dom V) (r : Registry) (r' : Registry) (n : Nat)
    (hr : closeDialog c.id r = some r') (hc : c.container = some n)
    (hnin : n ∉ d.bodyChildren) :
    closeFn debounce c d r =
      some ({ c with container := none, isMounted := false },
        { d with nodes := setContent d.nodes n none }, r') := by
  simp [closeFn, hr, hc, List.elem_eq_mem, hnin]

/-- `setContent` preserves the number of allocated nodes. -/
theorem setContent_length {V : Type} (nodes : List (DomNodeRec V)) (n : Nat)
    (c : Option (Element V)) : (setContent nodes n c).length = nodes.length := by
  unfold setContent
  cases nodes.get? n <;> simp

/-- Reading back the node `setContent` wrote to. -/
theorem setContent_get_eq {V : Type} (nodes : List (DomNodeRec V)) (n : Nat)
    (node : DomNodeRec V) (hn : nodes.get? n = some node) (c : Option (Element V)) :
    (setContent nodes n c).get? n = some { node with content := c } := by
  have hlt : n < nodes.length := by
    by_contra hx
    rw [List.get?_eq_getElem?, List.getElem?_eq_none (le_of_not_lt hx)] at hn
    exact Option.noConfusion hn
  unfold setContent
  rw [hn, List.get?_eq_getElem?, List.getElem?_set_self (by simpa using hlt)]

/-- `setContent` leaves every other node unchanged. -/
theorem setContent_get_ne {V : Type} (nodes : List (DomNodeRec V)) (m n : Nat)
    (h : n ≠ m) (c : Option (Element V)) :
    (setContent nodes n c).get? m = nodes.get? m := by
  unfold setContent
  cases hn : nodes.get? n with
  | none => rfl
  | some node => rw [List.get?_eq_getElem?, List.getElem?_set_ne h, List.get?_eq_getElem?]

end DialogManager

namespace DialogManager

/-- C1: for every value of the delay argument, `close(debounce)` behaves
identically to `close(0)` — same resulting controller, document and
registry; in particular the registry entry is marked closed and the
container reference is discarded, regardless of the delay. -/
theorem close_ignores_debounce (V : Type) (debounce : Nat) (c : Controller V) (d : Dom V)
    (r : Registry) :
    closeFn debounce c d r = closeFn 0 c d r
    ∧ (∀ b, r c.id = some b →
        ∃ c' d' r', closeFn debounce c d r = some (c', d', r')
          ∧ r' c.id = some false ∧ c'.isMounted = false ∧ c'.container = none) := by
  constructor
  · rfl
  · intro b hb
    have hr : closeDialog c.id r = some (fun k => if k = c.id then some false else r k) := by
      simp [closeDialog, hb]
    cases hcont : c.container with
    | none =>
      exact ⟨_, _, _, closeFn_container_none debounce c d r _ hr hcont, by simp, rfl, rfl⟩
    | some n =>
      by_cases hin : n ∈ d.bodyChildren
      · exact ⟨_, _, _, closeFn_container_some debounce c d r _ n hr hcont hin,
          by simp, rfl, rfl⟩
      · exact ⟨_, _, _, closeFn_container_some_detached debounce c d r _ n hr hcont hin,
          by simp, rfl, rfl⟩

/-- Witness: C1 evaluated at delay 5 on the sample states. -/
theorem close_ignores_debounce_witness :
    closeFn 5 sampleController sampleDom sampleRegistry
      = closeFn 0 sampleController sampleDom sampleRegistry
    ∧ ∃ c' d' r', closeFn 5 sampleController sampleDom sampleRegistry = some (c', d', r')
        ∧ r' sampleController.id = some false
        ∧ c'.isMounted = false ∧ c'.container = none :=
  ⟨(close_ignores_debounce Nat 5 sampleController sampleDom sampleRegistry).1,
   (close_ignores_debounce Nat 5 sampleController sampleDom sampleRegistry).2 false
     (by simp [sampleRegistry, sampleController])⟩

/-- C2: `openDialog` and `closeDialog` on an id with no registry entry
fail (modelled as `none`) instead of creating an entry; on a registered
id, `openDialog` sets the entry's flag to true and `closeDialog` sets it
to false. -/
theorem registry_open_close_require_registration (id : String) (r : Registry) :
    (r id = none → openDialog id r = none ∧ closeDialog id r = none)
    ∧ (r id ≠ none → ∃ r₁, openDialog id r = some r₁ ∧ r₁ id = some true)
    ∧ (r id ≠ none → ∃ r₂, closeDialog id r = some r₂ ∧ r₂ id = some false) := by
  refine ⟨fun h => ?_, fun h => ?_, fun h => ?_⟩
  · simp [openDialog, closeDialog, h]
  · rcases hb : r id with _ | b
    · exact absurd hb h
    · exact ⟨fun k => if k = id then some true else r k, by simp [openDialog, hb], by simp⟩
  · rcases hb : r id with _ | b
    · exact absurd hb h
    · exact ⟨fun k => if k = id then some false else r k, by simp [closeDialog, hb], by simp⟩

/-- Witness: C2 evaluated on an unregistered id and on the registered
sample id. -/
theorem registry_open_close_require_registration_witness :
    (openDialog "missing" sampleRegistry = none
      ∧ closeDialog "missing" sampleRegistry = none)
    ∧ (∃ r₁, openDialog "modal-1" sampleRegistry = some r₁ ∧ r₁ "modal-1" = some true)
    ∧ (∃ r₂, closeDialog "modal-1" sampleRegistry = some r₂
        ∧ r₂ "modal-1" = some false) :=
  ⟨(registry_open_close_require_registration "missing" sampleRegistry).1
      (by simp [sampleRegistry]),
   (registry_open_close_require_registration "modal-1" sampleRegistry).2.1
      (by simp [sampleRegistry]),
   (registry_open_close_require_registration "modal-1" sampleRegistry).2.2
      (by simp [sampleRegistry])⟩

/-- C3: `registerDialog(id)` writes the entry `{ open: false }` at key
`id`, and a second call overwrites with the same entry, so registering
twice equals registering once, whatever the prior flag was. -/
theorem registerDialog_inserts_false_and_idempotent (id : String) (r : Registry) :
    registerDialog id r id = some false
    ∧ registerDialog id (registerDialog id r) = registerDialog id r := by
  constructor
  · simp [registerDialog]
  · funext k
    by_cases h : k = id <;> simp [registerDialog, h]

/-- C4: on a registered id, `openDialog` followed by `closeDialog` leaves
the flag false, and the reverse sequence (`closeDialog` then
`openDialog`) applied twice produces the same registry as applying it
once. -/
theorem open_then_close_and_close_open_idempotent (id : String) (r : Registry) (b : Bool)
    (h : r id = some b) :
    (∃ r₂, (openDialog id r).bind (closeDialog id) = some r₂ ∧ r₂ id = some false)
    ∧ ((closeDialog id r).bind (openDialog id)).bind
        (fun s => (closeDialog id s).bind (openDialog id))
      = (closeDialog id r).bind (openDialog id) := by
  have e₁ : openDialog id r = some (fun k => if k = id then some true else r k) := by
    simp [openDialog, h]
  have e₂ : closeDialog id r = some (fun k => if k = id then some false else r k) := by
    simp [closeDialog, h]
  constructor
  · refine ⟨fun k => if k = id then some false else if k = id then some true else r k,
      ?_, by simp⟩
    rw [e₁, Option.some_bind]
    simp [closeDialog]
  · rw [e₂, Option.some_bind]
    have e₃ : openDialog id (fun k => if k = id then some false else r k)
        = some (fun k => if k = id then some true
            else if k = id then some false else r k) := by
      simp [openDialog]
    rw [e₃, Option.some_bind]
    have e₄ : closeDialog id
        (fun k => if k = id then some true else if k = id then some false else r k)
        = some (fun k => if k = id then some false
            else if k = id then some true else if k = id then some false else r k) := by
      simp [closeDialog]
    rw [e₄, Option.some_bind]
    have e₅ : openDialog id (fun k => if k = id then some false
          else if k = id then some true else if k = id then some false else r k)
        = some (fun k => if k = id then some true else if k = id then some false
            else if k = id then some true else if k = id then some false else r k) := by
      simp [openDialog]
    rw [e₅]
    exact congrArg some (funext fun k => by by_cases hk : k = id <;> simp [hk])

/-- Witness: C4 evaluated on the registered sample id. -/
theorem open_then_close_and_close_open_idempotent_witness :
    (∃ r₂, (openDialog "modal-1" sampleRegistry).bind (closeDialog "modal-1") = some r₂
        ∧ r₂ "modal-1" = some false)
    ∧ ((closeDialog "modal-1" sampleRegistry).bind (openDialog "modal-1")).bind
        (fun s => (closeDialog "modal-1" s).bind (openDialog "modal-1"))
      = (closeDialog "modal-1" sampleRegistry).bind (openDialog "modal-1") :=
  open_then_close_and_close_open_idempotent "modal-1" sampleRegistry false
    (by simp [sampleRegistry])

end DialogManager

namespace DialogManager

/-- C5: `open()` on an unmounted controller (no container) over a
well-formed document, with the id registered, makes `isMounted` true,
creates the container node (the reference becomes non-null), attaches it
to the body, renders the component with the current props and the id
inside the Suspense boundary into it, and marks the registry entry
open. -/
theorem open_from_unmounted {V : Type} (c : Controller V) (d : Dom V) (r : Registry)
    (b : Bool) (hm : c.isMounted = false) (hc : c.container = none) (hwf : d.WF)
    (hb : r c.id = some b) :
    (openFn c d r).1.isMounted = true
    ∧ (openFn c d r).1.container = some d.nodes.length
    ∧ (openFn c d r).1.mountTargetIsBody = true
    ∧ (openFn c d r).2.1.nodes.get? d.nodes.length
        = some ⟨c.id, some ⟨Fallback.nullF, c.props, c.id⟩⟩
    ∧ d.nodes.length ∈ (openFn c d r).2.1.bodyChildren
    ∧ ∃ r', (openFn c d r).2.2 = some r' ∧ r' c.id = some true := by
  have hfresh := fresh_not_in_body d hwf
  rw [openFn_container_none c d r hc hfresh]
  refine ⟨rfl, rfl, rfl, ?_, ?_, ?_⟩
  · have hx : (d.nodes ++ [(⟨c.id, none⟩ : DomNodeRec V)]).get? d.nodes.length
        = some ⟨c.id, none⟩ := by
      rw [List.get?_eq_getElem?, List.getElem?_concat_length]
    rw [setContent_get_eq _ _ _ hx]
  · exact List.mem_append_right _ (List.mem_singleton.mpr rfl)
  · exact ⟨fun k => if k = c.id then some true else r k, by simp [openDialog, hb], by simp⟩

/-- Witness: C5 evaluated on the fresh sample controller over the empty
document. -/
theorem open_from_unmounted_witness :
    (openFn sampleController sampleDom sampleRegistry).1.isMounted = true
    ∧ (openFn sampleController sampleDom sampleRegistry).1.container
        = some sampleDom.nodes.length
    ∧ (openFn sampleController sampleDom sampleRegistry).1.mountTargetIsBody = true
    ∧ (openFn sampleController sampleDom sampleRegistry).2.1.nodes.get?
          sampleDom.nodes.length
        = some ⟨sampleController.id,
            some ⟨Fallback.nullF, sampleController.props, sampleController.id⟩⟩
    ∧ sampleDom.nodes.length
        ∈ (openFn sampleController sampleDom sampleRegistry).2.1.bodyChildren
    ∧ ∃ r', (openFn sampleController sampleDom sampleRegistry).2.2 = some r'
        ∧ r' sampleController.id = some true :=
  open_from_unmounted sampleController sampleDom sampleRegistry false rfl rfl
    (by simp [Dom.WF, sampleDom]) (by simp [sampleRegistry, sampleController])

/-- C6: starting unmounted over a well-formed document whose body holds no
node with the dialog's id, and with the id registered, `open()` followed
by `close()` ends with `isMounted` false, a null container reference, the
created node detached (the body again holds no node with the dialog's id,
and its children are exactly as before), and the registry entry closed. -/
theorem close_after_open_detaches {V : Type} (c : Controller V) (d : Dom V) (r : Registry)
    (b : Bool) (hc : c.container = none) (hwf : d.WF) (hb : r c.id = some b)
    (hbody : bodyContainsId d c.id = false) :
    ∃ r₁ c₂ d₂ r₂,
      (openFn c d r).2.2 = some r₁
      ∧ closeFn 0 (openFn c d r).1 (openFn c d r).2.1 r₁ = some (c₂, d₂, r₂)
      ∧ c₂.isMounted = false
      ∧ c₂.container = none
      ∧ d₂.bodyChildren = d.bodyChildren
      ∧ bodyContainsId d₂ c.id = false
      ∧ r₂ c.id = some false := by
  have hfresh := fresh_not_in_body d hwf
  have e₁ : openDialog c.id r = some (fun k => if k = c.id then some true else r k) := by
    simp [openDialog, hb]
  have e₂ : closeDialog c.id (fun k => if k = c.id then some true else r k)
      = some (fun k => if k = c.id then some false
          else if k = c.id then some true else r k) := by
    simp [closeDialog]
  have herase : (d.bodyChildren ++ [d.nodes.length]).erase d.nodes.length
      = d.bodyChildren := by
    rw [List.erase_append_right _ hfresh, List.erase_cons_head]
    simp
  rw [openFn_container_none c d r hc hfresh]
  refine ⟨_, _, _, _, e₁,
    closeFn_container_some 0 _ _ _ _ d.nodes.length e₂ rfl
      (List.mem_append_right _ (List.mem_singleton.mpr rfl)),
    rfl, rfl, herase, ?_, by simp⟩
  unfold bodyContainsId at hbody ⊢
  rw [herase]
  refine List.any_eq_false.mpr ?_
  intro m hm
  have hml : m < d.nodes.length := hwf.2 m hm
  have hne : d.nodes.length ≠ m := ne_of_gt hml
  have hget : (setContent
        (setContent (d.nodes ++ [(⟨c.id, none⟩ : DomNodeRec V)]) d.nodes.length
          (some ⟨Fallback.nullF, c.props, c.id⟩))
        d.nodes.length none).get? m = d.nodes.get? m := by
    rw [setContent_get_ne _ _ _ hne, setContent_get_ne _ _ _ hne]
    simp only [List.get?_eq_getElem?]
    rw [List.getElem?_append_left hml]
  simp only [hget]
  exact List.any_eq_false.mp hbody m hm

/-- Witness: C6 evaluated on the fresh sample controller over the empty
document. -/
theorem close_after_open_detaches_witness :
    ∃ r₁ c₂ d₂ r₂,
      (openFn sampleController sampleDom sampleRegistry).2.2 = some r₁
      ∧ closeFn 0 (openFn sampleController sampleDom sampleRegistry).1
          (openFn sampleController sampleDom sampleRegistry).2.1 r₁ = some (c₂, d₂, r₂)
      ∧ c₂.isMounted = false
      ∧ c₂.container = none
      ∧ d₂.bodyChildren = sampleDom.bodyChildren
      ∧ bodyContainsId d₂ sampleController.id = false
      ∧ r₂ sampleController.id = some false :=
  close_after_open_detaches sampleController sampleDom sampleRegistry false rfl
    (by simp [Dom.WF, sampleDom]) (by simp [sampleRegistry, sampleController])
    (by simp [bodyContainsId, sampleDom])

end DialogManager

namespace DialogManager

/-- C7: `updateProps` shallowly merges the partial into the current props,
last write wins per key: two successive updates compose into the single
merged update; with `{x: 1}` then `{y: 2}` the merged set holds both keys
and leaves all other keys untouched; while mounted the props-update
effect re-renders the container with the merged props; while unmounted it
performs no render call, and the merged props are the ones the next
`open()` renders. -/
theorem updateProps_merge_and_render {V : Type} (c : Controller V) (d : Dom V)
    (r : Registry) (p₁ p₂ : String → Option V) (v₁ v₂ : V) (n : Nat) :
    (updateProps none p₂ (updateProps none p₁ c)
      = updateProps none
          (fun k => match p₂ k with | some v => some v | none => p₁ k) c)
    ∧ (p₁ "x" = some v₁ → p₂ "x" = none → p₂ "y" = some v₂ →
        (updateProps none p₂ (updateProps none p₁ c)).props "x" = some v₁
        ∧ (updateProps none p₂ (updateProps none p₁ c)).props "y" = some v₂
        ∧ ∀ k, p₁ k = none → p₂ k = none →
            (updateProps none p₂ (updateProps none p₁ c)).props k = c.props k)
    ∧ (c.isMounted = true → c.container = some n → ∀ node, d.nodes.get? n = some node →
        (propsEffect (updateProps none p₂ (updateProps none p₁ c)) d).nodes.get? n
          = some { node with content := some ⟨Fallback.loadingDiv,
              (updateProps none p₂ (updateProps none p₁ c)).props, c.id⟩ })
    ∧ (c.isMounted = false →
        propsEffect (updateProps none p₂ (updateProps none p₁ c)) d = d)
    ∧ (c.container = none → d.WF →
        (openFn (updateProps none p₂ (updateProps none p₁ c)) d r).2.1.nodes.get?
            d.nodes.length
          = some ⟨c.id, some ⟨Fallback.nullF,
              (updateProps none p₂ (updateProps none p₁ c)).props, c.id⟩⟩) := by
  refine ⟨?_, ?_, ?_, ?_, ?_⟩
  · obtain ⟨cid, cprops, cm, cc, cmt⟩ := c
    simp only [updateProps, Controller.mk.injEq, Option.getD_none]
    refine ⟨trivial, funext fun k => ?_, trivial, trivial, trivial⟩
    cases hp : p₂ k <;> simp
  · intro hx hxn hy
    refine ⟨by simp [updateProps, hx, hxn], by simp [updateProps, hy], fun k h₁ h₂ => ?_⟩
    simp [updateProps, h₁, h₂]
  · intro hm hcont node hnode
    have hm' : (updateProps none p₂ (updateProps none p₁ c)).isMounted = true := hm
    have hcont' : (updateProps none p₂ (updateProps none p₁ c)).container = some n := hcont
    simp only [propsEffect, hm', hcont', if_true]
    rw [setContent_get_eq _ _ _ hnode]
    rfl
  · intro hm
    have hm' : (updateProps none p₂ (updateProps none p₁ c)).isMounted = false := hm
    simp [propsEffect, hm']
  · intro hcont hwf
    have hcont' : (updateProps none p₂ (updateProps none p₁ c)).container = none := hcont
    rw [openFn_container_none _ d r hcont' (fresh_not_in_body d hwf)]
    have hx : (d.nodes ++ [(⟨c.id, none⟩ : DomNodeRec V)]).get? d.nodes.length
        = some ⟨c.id, none⟩ := by
      rw [List.get?_eq_getElem?, List.getElem?_concat_length]
    exact setContent_get_eq _ _ _ hx _

/-- Witness: C7 with the updates `{x: 1}` then `{y: 2}` on the unmounted
sample controller — the merged set holds both keys and the effect issues
no render. -/
theorem updateProps_merge_and_render_witness :
    (updateProps none pY (updateProps none pX sampleController)).props "x" = some 1
    ∧ (updateProps none pY (updateProps none pX sampleController)).props "y" = some 2
    ∧ propsEffect (updateProps none pY (updateProps none pX sampleController)) sampleDom
        = sampleDom := by
  obtain ⟨-, h₂, -, h₄, -⟩ := updateProps_merge_and_render sampleController sampleDom
    sampleRegistry pX pY 1 2 0
  obtain ⟨ha, hb, -⟩ := h₂ (by simp [pX]) (by simp [pY]) (by simp [pY])
  exact ⟨ha, hb, h₄ rfl⟩

/-- C8: `open()` while already mounted re-renders into the same container
node: the container reference is unchanged, no new node is allocated, the
body's children are untouched, the existing node's content is replaced by
the freshly built tree, and the registry entry is redundantly re-marked
open (the registry is unchanged). -/
theorem open_while_mounted {V : Type} (c : Controller V) (d : Dom V) (r : Registry)
    (n : Nat) (hm : c.isMounted = true) (hc : c.container = some n)
    (hin : n ∈ d.bodyChildren) (hn : n < d.nodes.length) (hr : r c.id = some true) :
    (openFn c d r).1.container = some n
    ∧ (openFn c d r).2.1.nodes.length = d.nodes.length
    ∧ (openFn c d r).2.1.bodyChildren = d.bodyChildren
    ∧ (openFn c d r).2.1.nodes.get? n
        = (d.nodes.get? n).map
            (fun node => { node with content := some ⟨Fallback.nullF, c.props, c.id⟩ })
    ∧ (openFn c d r).2.2 = some r := by
  rw [openFn_container_some c d r n hc hin]
  refine ⟨rfl, setContent_length _ _ _, rfl, ?_, ?_⟩
  · have hnode : d.nodes.get? n = some (d.nodes.get ⟨n, hn⟩) := by
      rw [List.get?_eq_getElem?]
      exact List.getElem?_eq_getElem hn
    rw [setContent_get_eq _ _ _ hnode, hnode]
    rfl
  · have e : openDialog c.id r = some (fun k => if k = c.id then some true else r k) := by
      simp [openDialog, hr]
    rw [e]
    exact congrArg some (funext fun k => by by_cases hk : k = c.id <;> simp [hk, hr])

/-- Witness: C8 evaluated on the mounted sample controller. -/
theorem open_while_mounted_witness :
    (openFn mountedController mountedDom openRegistry).1.container = some 0
    ∧ (openFn mountedController mountedDom openRegistry).2.1.nodes.length
        = mountedDom.nodes.length
    ∧ (openFn mountedController mountedDom openRegistry).2.1.bodyChildren
        = mountedDom.bodyChildren
    ∧ (openFn mountedController mountedDom openRegistry).2.1.nodes.get? 0
        = (mountedDom.nodes.get? 0).map
            (fun node => { node with content := some ⟨Fallback.nullF,
                mountedController.props, mountedController.id⟩ })
    ∧ (openFn mountedController mountedDom openRegistry).2.2 = some openRegistry :=
  open_while_mounted mountedController mountedDom openRegistry 0 rfl rfl
    (by simp [mountedDom]) (by simp [mountedDom])
    (by simp [openRegistry, mountedController])

/-- C9: `close()` while already unmounted (no container, id registered
closed) skips every DOM operation — the document is returned unchanged —
yet still issues the registry close mutation, which leaves the registry
state unchanged. -/
theorem close_while_unmounted {V : Type} (c : Controller V) (d : Dom V) (r : Registry)
    (hc : c.container = none) (hr : r c.id = some false) :
    ∃ r', closeDialog c.id r = some r' ∧ r' = r
      ∧ closeFn 0 c d r = some ({ c with container := none, isMounted := false }, d, r') := by
  have e : closeDialog c.id r = some (fun k => if k = c.id then some false else r k) := by
    simp [closeDialog, hr]
  have hrr : (fun k => if k = c.id then some false else r k) = r :=
    funext fun k => by by_cases hk : k = c.id <;> simp [hk, hr]
  exact ⟨_, e, hrr, closeFn_container_none 0 c d r _ e hc⟩

/-- Witness: C9 evaluated on the unmounted sample controller. -/
theorem close_while_unmounted_witness :
    ∃ r', closeDialog sampleController.id sampleRegistry = some r'
      ∧ r' = sampleRegistry
      ∧ closeFn 0 sampleController sampleDom sampleRegistry
          = some ({ sampleController with container := none, isMounted := false },
              sampleDom, r') :=
  close_while_unmounted sampleController sampleDom sampleRegistry rfl
    (by simp [sampleRegistry, sampleController])

/-- C10: every registry mutation is local to the key it names — at every
other key, `registerDialog`, `unregisterDialog`, `openDialog` and
`closeDialog` leave the entry (its presence and its flag) unchanged. -/
theorem registry_mutations_frame (id k : String) (hk : k ≠ id) (r : Registry) :
    registerDialog id r k = r k
    ∧ unregisterDialog id r k = r k
    ∧ (∀ r₁, openDialog id r = some r₁ → r₁ k = r k)
    ∧ (∀ r₂, closeDialog id r = some r₂ → r₂ k = r k) := by
  refine ⟨by simp [registerDialog, hk], by simp [unregisterDialog, hk], ?_, ?_⟩
  · intro r₁ h₁
    rcases hb : r id with _ | b <;> simp [openDialog, hb] at h₁
    subst h₁; simp [hk]
  · intro r₂ h₂
    rcases hb : r id with _ | b <;> simp [closeDialog, hb] at h₂
    subst h₂; simp [hk]

/-- Witness: C10 evaluated at the distinct keys "modal-1" and "other". -/
theorem registry_mutations_frame_witness :
    registerDialog "modal-1" sampleRegistry "other" = sampleRegistry "other"
    ∧ unregisterDialog "modal-1" sampleRegistry "other" = sampleRegistry "other"
    ∧ (∀ r₁, openDialog "modal-1" sampleRegistry = some r₁
        → r₁ "other" = sampleRegistry "other")
    ∧ (∀ r₂, closeDialog "modal-1" sampleRegistry = some r₂
        → r₂ "other" = sampleRegistry "other") :=
  registry_mutations_frame "modal-1" "other" (by decide) sampleRegistry

end DialogManager
